import Mathlib

/-!
# Verification of the rear-differential media service

Shallow embedding of the service's record store, gateways and the
reject/soft-delete orchestration, translated from the Python sources
(`app/services/db_service.py`, `app/services/file_service.py`,
`app/services/transmission_service.py`, `app/routers/training.py`,
`app/routers/media.py`), together with theorems settling the frozen
claims about the natural-language specification.

Conventions of the embedding:
* Python strings are Lean `String`s; the Python string operations used by
  the sources (`split`, `strip`, `lower`, `rstrip`, substring containment)
  are re-implemented over `List Char` so that they evaluate by `decide`.
* Python `None`/falsiness is modelled with `Option` plus explicit
  truthiness functions (`optStrTruthy`, `optListTruthy`).
* Database tables are lists of row structures; the SQL queries issued by
  the store are modelled by their semantics: `WHERE` clauses become
  decidable row predicates built from the same per-field conditions the
  source appends, `ORDER BY` becomes a stable `mergeSort` with a
  comparator keyed on the (validated or interpolated) sort field and a
  tiebreak on the primary identifier, `LIMIT`/`OFFSET` become
  `take`/`drop`, and `COUNT(*)` becomes the length of the filtered list.
* Timestamps (`NOW()`) are a `Nat` parameter `now` threaded explicitly.
* The filesystem and the Transmission daemon are modelled as explicit
  oracle structures (`FileSys`, `Daemon`) describing, per path / per RPC
  call, what the outside world does; the gateway functions are translated
  from the source against those oracles.  Exceptions raised by the
  outside world are constructors of the oracle outcome types, so "the
  gateway catches and never raises" is expressed by the gateway functions
  being total functions into result structures.
* HTTP handlers return `Except HttpError body`; `Except.error` models
  `raise HTTPException(status_code, detail)` and `Except.ok` a plain
  (status 200) response body.  Handlers additionally return the list of
  store/RPC events they caused, in order, so that "no database access
  happens" and "removal is attempted before the write" are statable.
-/

namespace RearDiff

/-! ## Python-style string operations -/

/-- Python `str.split(sep)` for a one-character separator, on `List Char`:
always returns at least one (possibly empty) segment. -/
def pySplitChar (c : Char) : List Char → List (List Char)
  | [] => [[]]
  | x :: xs =>
    match pySplitChar c xs with
    | [] => [[x]]
    | y :: ys => if x = c then [] :: y :: ys else (x :: y) :: ys

/-- Python `s.split(sep)` for a one-character separator. -/
def pySplit (sep : Char) (s : String) : List String :=
  (pySplitChar sep s.data).map String.mk

/-- Python `s.strip()`: remove leading and trailing whitespace. -/
def pyStrip (s : String) : String :=
  String.mk (((s.data.dropWhile Char.isWhitespace).reverse.dropWhile
    Char.isWhitespace).reverse)

/-- Python `s.lower()` (ASCII case folding, which is all the sources use). -/
def pyLower (s : String) : String := String.mk (s.data.map Char.toLower)

/-- `sub` occurs as a contiguous run inside the character list. -/
def chInfix (sub : List Char) : List Char → Bool
  | [] => sub.isEmpty
  | x :: xs => sub.isPrefixOf (x :: xs) || chInfix sub xs

/-- Python `sub in s` (substring containment). -/
def strContains (s sub : String) : Bool := chInfix sub.data s.data

/-- Python `s.rstrip('/')`. -/
def rstripSlash (s : String) : String :=
  String.mk (s.data.reverse.dropWhile (· = '/')).reverse

/-- Python `s.rstrip('/').split('/')[-1]`: the trailing path segment of a
link, as extracted by the reject handler for the torrent hash. -/
def lastSegment (s : String) : String :=
  (pySplit '/' (rstripSlash s)).getLastD ""

/-- Lexicographic order on character lists (the embedding of SQL text
ordering used by the `ORDER BY` comparators). -/
def chLe : List Char → List Char → Bool
  | [], _ => true
  | _ :: _, [] => false
  | a :: as, b :: bs => if a = b then chLe as bs else decide (a < b)

/-- String order for sort comparators. -/
def strLe (a b : String) : Bool := chLe a.data b.data

/-- Python truthiness of an optional string (`if x:`): present and
non-empty. -/
def optStrTruthy : Option String → Bool
  | none => false
  | some s => s ≠ ""

/-- Python truthiness of an optional list (`if xs:`): present and
non-empty. -/
def optListTruthy {α : Type} : Option (List α) → Bool
  | none => false
  | some l => !l.isEmpty

/-! ## Sort-field validation (Record Store listing operations)

`db_service.get_training_data`, `get_prediction_data` and
`get_movie_data` validate `sort_by` against a fixed in-code allow-list,
silently replacing unrecognized values with the entity's default field,
and lower-case/validate `sort_order` with fallback `"desc"`.
`db_service.get_media_data` performs no such validation at all: the
`sort_by`/`sort_order` arguments it receives are interpolated verbatim
into the query text; only the media router's FastAPI `regex` constraint
restricts them (by rejecting non-matching values with a validation
error). -/

/-- `valid_sort_fields` of `get_training_data` (db_service.py:110-116). -/
def trainingValidSortFields : List String :=
  ["created_at", "updated_at", "media_title", "release_year",
   "media_type", "label", "imdb_id", "tmdb_id", "budget",
   "revenue", "runtime", "original_language", "tmdb_rating",
   "tmdb_votes", "rt_score", "metascore", "imdb_rating",
   "imdb_votes", "human_labeled", "anomalous", "reviewed"]

/-- `valid_sort_fields` of `get_prediction_data` (db_service.py:741). -/
def predictionValidSortFields : List String :=
  ["imdb_id", "prediction", "probability", "cm_value", "created_at"]

/-- `valid_sort_fields` of `get_movie_data` (db_service.py:1008-1018). -/
def movieValidSortFields : List String :=
  ["imdb_id", "tmdb_id", "label", "media_type", "media_title",
   "season", "episode", "release_year", "budget", "revenue", "runtime",
   "origin_country", "production_companies", "production_countries",
   "production_status", "original_language", "spoken_languages",
   "genre", "original_media_title", "tagline", "overview",
   "tmdb_rating", "tmdb_votes", "rt_score", "metascore",
   "imdb_rating", "imdb_votes", "human_labeled", "anomalous",
   "reviewed", "prediction", "probability", "cm_value",
   "training_created_at", "training_updated_at", "prediction_created_at"]

/-- The allow-list the media router's `regex` on `sort_by` admits
(`routers/media.py:29`); `get_media_data` itself has no list. -/
def mediaRouterSortFields : List String :=
  ["created_at", "updated_at", "release_year", "media_title", "imdb_rating"]

/-- `if sort_by not in valid_sort_fields: sort_by = default`. -/
def validateSortBy (valid : List String) (dflt sort_by : String) : String :=
  if sort_by ∈ valid then sort_by else dflt

/-- `sort_order = sort_order.lower(); if sort_order not in ["asc","desc"]:
sort_order = default`. -/
def validateSortOrder (dflt sort_order : String) : String :=
  if pyLower sort_order = "asc" ∨ pyLower sort_order = "desc" then pyLower sort_order
  else dflt

/-- The `sort_by` value `get_training_data` interpolates into its query. -/
def trainingSortBy (s : String) : String :=
  validateSortBy trainingValidSortFields "created_at" s

/-- The `sort_order` value `get_training_data` interpolates. -/
def trainingSortOrder (s : String) : String := validateSortOrder "desc" s

/-- The `sort_by` value `get_prediction_data` interpolates. -/
def predictionSortBy (s : String) : String :=
  validateSortBy predictionValidSortFields "created_at" s

/-- The `sort_order` value `get_prediction_data` interpolates. -/
def predictionSortOrder (s : String) : String := validateSortOrder "desc" s

/-- The `sort_by` value `get_movie_data` interpolates. -/
def movieSortBy (s : String) : String :=
  validateSortBy movieValidSortFields "training_created_at" s

/-- The `sort_order` value `get_movie_data` interpolates. -/
def movieSortOrder (s : String) : String := validateSortOrder "desc" s

/-- The `sort_by` value `get_media_data` interpolates: the argument,
verbatim — the function contains no allow-list check
(db_service.py:246-263). -/
def mediaSortBy (s : String) : String := s

/-- The `sort_order` value `get_media_data` interpolates: the argument,
verbatim. -/
def mediaSortOrder (s : String) : String := s

/-! ## Observable store / RPC events

Handlers and service functions report, in execution order, the database
statements and Transmission RPC calls they cause. -/

/-- One observable effect of a request. -/
inductive Event
  | dbSelectTraining (imdb_id : String)
  | dbUpdateTraining (imdb_id : String)
  | dbSelectMedia (hash : String)
  | dbUpdateMedia (hash : String)
  | rpcConnect
  | rpcGetTorrent (hash : String)
  | rpcRemoveTorrent (hash : String) (delete_data : Bool)
  | rpcAddTorrent (link : String)
deriving DecidableEq

/-- A value stored in the `updated_fields` response dictionary. -/
inductive FieldVal
  | s (v : String)
  | b (v : Bool)
deriving DecidableEq

/-- `raise HTTPException(status_code=..., detail=...)`. -/
structure HttpError where
  status : Nat
  detail : String
deriving DecidableEq

/-! ## Training record store (`atp.training`)

Rows carry the identity, the filterable/mutable fields and the
timestamps; the optional metadata columns (budget, ratings, ...) are not
filtered or written by any operation under verification and are omitted
from the row model (sorting on them falls back to `created_at` in the
comparator). -/

/-- A row of `atp.training`. -/
structure TrainingRow where
  imdb_id : String
  label : Option String
  media_type : String
  media_title : String
  human_labeled : Bool
  anomalous : Bool
  reviewed : Bool
  created_at : Nat
  updated_at : Nat
deriving DecidableEq

/-- Pagination block of the training listing (the source renders `next`/
`previous` as URLs around the offsets computed here; the embedding keeps
the offsets). -/
structure Pagination where
  total : Nat
  limit : Nat
  offset : Nat
  next : Option Nat
  previous : Option Int
deriving DecidableEq

/-- Result of `get_training_data`. -/
structure TrainingListResult where
  data : List TrainingRow
  pagination : Pagination
deriving DecidableEq

/-- The `WHERE` clause built by `get_training_data` (db_service.py:71-107),
as a row predicate: one conjunct per filter the source appends, guarded by
the same Python truthiness tests. -/
def trainingRowMatches (media_type label : Option String)
    (reviewed human_labeled anomalous : Option Bool)
    (imdb_ids : Option (List String)) (media_title : Option String)
    (r : TrainingRow) : Bool :=
  (if optStrTruthy media_type then decide (r.media_type = media_type.getD "") else true) &&
  (if optStrTruthy label then decide (r.label = some (label.getD "")) else true) &&
  (match reviewed with | none => true | some b => r.reviewed == b) &&
  (match human_labeled with | none => true | some b => r.human_labeled == b) &&
  (match anomalous with | none => true | some b => r.anomalous == b) &&
  (if optListTruthy imdb_ids then decide (r.imdb_id ∈ imdb_ids.getD []) else true) &&
  (if optStrTruthy media_title then
    strContains (pyLower r.media_title) (pyLower (media_title.getD "")) else true)

/-- Comparison on the training sort column (columns not carried by the row
model compare as `created_at`). -/
def trainingFieldLe (f : String) (a b : TrainingRow) : Bool :=
  if f = "imdb_id" then strLe a.imdb_id b.imdb_id
  else if f = "media_title" then strLe a.media_title b.media_title
  else if f = "media_type" then strLe a.media_type b.media_type
  else if f = "updated_at" then decide (a.updated_at ≤ b.updated_at)
  else decide (a.created_at ≤ b.created_at)

/-- `ORDER BY field ord, tiebreak ASC` as a total comparator: equal sort
keys fall through to the identifier tiebreak. -/
def orderByLe {ρ : Type} (fieldLe : ρ → ρ → Bool) (ord : String)
    (tieLe : ρ → ρ → Bool) (a b : ρ) : Bool :=
  if fieldLe a b && fieldLe b a then tieLe a b
  else if ord = "asc" then fieldLe a b else fieldLe b a

/-- `DatabaseService.get_training_data` (db_service.py:35-159): filter,
count, sort with validated sort parameters, paginate. -/
def get_training_data (table : List TrainingRow)
    (media_type label : Option String)
    (reviewed human_labeled anomalous : Option Bool)
    (imdb_ids : Option (List String)) (media_title : Option String)
    (limit offset : Nat) (sort_by sort_order : String) : TrainingListResult :=
  let matching := table.filter
    (trainingRowMatches media_type label reviewed human_labeled anomalous imdb_ids media_title)
  let total := matching.length
  let sorted := matching.mergeSort
    (orderByLe (trainingFieldLe (trainingSortBy sort_by)) (trainingSortOrder sort_order)
      (fun a b => strLe a.imdb_id b.imdb_id))
  { data := (sorted.drop offset).take limit,
    pagination :=
      { total := total, limit := limit, offset := offset,
        next := if offset + limit < total then some (offset + limit) else none,
        previous := if offset > 0 then some ((offset : Int) - (limit : Int)) else none } }

/-- Result dictionary of the training write operations. -/
structure UpdateResult where
  success : Bool
  error : Option String := none
  message : String
  updated_fields : Option (List (String × FieldVal)) := none
deriving DecidableEq

/-- The `updated_fields` dictionary (and, in lockstep, the nonemptiness of
the SQL `SET` list) built by `update_training_fields`
(db_service.py:437-464): one entry per branch the source takes. -/
def trainingUpdateSetList (label : Option String)
    (human_labeled anomalous reviewed : Option Bool) : List (String × FieldVal) :=
  (match label with
    | some l => [("label", FieldVal.s l), ("human_labeled", FieldVal.b true),
                 ("reviewed", FieldVal.b true)]
    | none => []) ++
  (match human_labeled, label with
    | some b, none => [("human_labeled", FieldVal.b b)]
    | _, _ => []) ++
  (match anomalous with
    | some b => [("anomalous", FieldVal.b b)]
    | none => []) ++
  (match reviewed, label with
    | some b, none => [("reviewed", FieldVal.b b)]
    | _, _ => [])

/-- Effect of the dynamic `UPDATE ... SET` of `update_training_fields` on
one row: same branch conditions as `trainingUpdateSetList`, plus
`updated_at = NOW()`. -/
def applyTrainingUpdate (label : Option String)
    (human_labeled anomalous reviewed : Option Bool) (now : Nat)
    (r : TrainingRow) : TrainingRow :=
  let r1 := match label with
    | some l => { r with label := some l, human_labeled := true, reviewed := true }
    | none => r
  let r2 := match human_labeled, label with
    | some b, none => { r1 with human_labeled := b }
    | _, _ => r1
  let r3 := match anomalous with
    | some b => { r2 with anomalous := b }
    | none => r2
  let r4 := match reviewed, label with
    | some b, none => { r3 with reviewed := b }
    | _, _ => r3
  { r4 with updated_at := now }

/-- `DatabaseService.update_training_fields` (db_service.py:406-505):
existence check, dynamic field list, `UPDATE` of every row with the
identifier. Returns the result dictionary, the table after the write and
the statements executed. -/
def update_training_fields (table : List TrainingRow) (now : Nat)
    (imdb_id : String) (label : Option String)
    (human_labeled anomalous reviewed : Option Bool) :
    UpdateResult × List TrainingRow × List Event :=
  if table.any (fun r => r.imdb_id == imdb_id) then
    let fields := trainingUpdateSetList label human_labeled anomalous reviewed
    if fields.isEmpty then
      ({ success := false, error := some "No fields to update",
         message := "At least one field must be provided for update" },
       table, [Event.dbSelectTraining imdb_id])
    else
      ({ success := true, message := "Training data updated successfully",
         updated_fields := some fields },
       table.map (fun r => if r.imdb_id == imdb_id then
         applyTrainingUpdate label human_labeled anomalous reviewed now r else r),
       [Event.dbSelectTraining imdb_id, Event.dbUpdateTraining imdb_id])
  else
    ({ success := false, error := some "Training data not found",
       message := "No training data found with IMDB ID: " ++ imdb_id },
     table, [Event.dbSelectTraining imdb_id])

/-! ## Training router (`routers/training.py`) -/

/-- The `imdb_id` query-parameter parsing of the training (and movies)
listing handler: `[id.strip() for id in imdb_id.split(',') if id.strip()]`,
guarded by `if imdb_id:` (routers/training.py:37-40). -/
def parseImdbIds : Option String → Option (List String)
  | none => none
  | some s =>
    if s = "" then none
    else some (((pySplit ',' s).filter (fun t => pyStrip t ≠ "")).map pyStrip)

/-- `GET /training` handler (routers/training.py:19-55): parse the
`imdb_id` parameter and delegate to the store. -/
def getTrainingEndpoint (table : List TrainingRow)
    (media_type label : Option String)
    (reviewed human_labeled anomalous : Option Bool)
    (imdb_id media_title : Option String)
    (limit offset : Nat) (sort_by sort_order : String) : TrainingListResult :=
  get_training_data table media_type label reviewed human_labeled anomalous
    (parseImdbIds imdb_id) media_title limit offset sort_by sort_order

/-- Body of `PATCH /training/{imdb_id}`. -/
structure TrainingUpdateRequest where
  imdb_id : String
  label : Option String := none
  human_labeled : Option Bool := none
  anomalous : Option Bool := none
  reviewed : Option Bool := none
deriving DecidableEq

/-- Response body of the training update/reject handlers (the result
dictionary, possibly augmented with the reject bookkeeping keys). -/
structure TrainingUpdateResponseBody where
  success : Bool
  error : Option String := none
  message : String
  updated_fields : Option (List (String × FieldVal)) := none
  file_deleted : Option Bool := none
  file_deletion_warning : Option String := none
  torrent_removed : Option Bool := none
deriving DecidableEq

/-- Coerce a store result dictionary into a response body. -/
def bodyOfUpdateResult (u : UpdateResult) : TrainingUpdateResponseBody :=
  { success := u.success, error := u.error, message := u.message,
    updated_fields := u.updated_fields }

/-- `PATCH /training/{imdb_id}` handler (routers/training.py:62-93):
identifier-mismatch check, then the store update. The source computes a
404/500 status code when the update fails but never uses it — the result
dictionary is returned as the (200) response body either way. -/
def updateTrainingEndpoint (table : List TrainingRow) (now : Nat)
    (imdb_id : String) (request : TrainingUpdateRequest) :
    (Except HttpError TrainingUpdateResponseBody) × List TrainingRow × List Event :=
  if request.imdb_id ≠ imdb_id then
    (Except.ok { success := false, error := some "IMDB ID mismatch",
                 message := "Path IMDB ID and body IMDB ID do not match" },
     table, [])
  else
    let r := update_training_fields table now imdb_id request.label
      request.human_labeled request.anomalous request.reviewed
    (Except.ok (bodyOfUpdateResult r.1), r.2.1, r.2.2)

/-! ## Media record store (`atp.media`)

As for training rows, only the columns some modelled operation filters,
reads or writes are carried; the remaining metadata columns sort as
`created_at` in the comparator. -/

/-- A row of `atp.media`. `deleted_at = some t` means soft-deleted. -/
structure MediaRow where
  hash : String
  media_type : String
  media_title : String
  pipeline_status : String
  error_status : Bool
  error_condition : Option String
  rejection_status : String
  imdb_id : Option String
  parent_path : Option String
  target_path : Option String
  original_link : Option String
  deleted_at : Option Nat
  created_at : Nat
  updated_at : Nat
deriving DecidableEq

/-- Pagination block used by the media, prediction and movies listings. -/
structure PaginationHasMore where
  total : Nat
  limit : Nat
  offset : Nat
  has_more : Bool
deriving DecidableEq

/-- Result of `get_media_data`. -/
structure MediaListResult where
  data : List MediaRow
  pagination : PaginationHasMore
deriving DecidableEq

/-- The `WHERE` clause of `get_media_data` (db_service.py:204-238): the
optional filters plus the unconditional `deleted_at IS NULL`. -/
def mediaRowMatches (media_type pipeline_status rejection_status : Option String)
    (error_status : Option Bool) (imdb_id media_title hash : Option String)
    (r : MediaRow) : Bool :=
  (if optStrTruthy media_type then decide (r.media_type = media_type.getD "") else true) &&
  (if optStrTruthy pipeline_status then decide (r.pipeline_status = pipeline_status.getD "") else true) &&
  (if optStrTruthy rejection_status then decide (r.rejection_status = rejection_status.getD "") else true) &&
  (match error_status with | none => true | some b => r.error_status == b) &&
  (if optStrTruthy imdb_id then decide (r.imdb_id = some (imdb_id.getD "")) else true) &&
  (if optStrTruthy media_title then
    strContains (pyLower r.media_title) (pyLower (media_title.getD "")) else true) &&
  (if optStrTruthy hash then decide (r.hash = hash.getD "") else true) &&
  r.deleted_at.isNone

/-- Comparison on the media sort column (columns not carried by the row
model compare as `created_at`). -/
def mediaFieldLe (f : String) (a b : MediaRow) : Bool :=
  if f = "media_title" then strLe a.media_title b.media_title
  else if f = "updated_at" then decide (a.updated_at ≤ b.updated_at)
  else decide (a.created_at ≤ b.created_at)

/-- `DatabaseService.get_media_data` (db_service.py:168-303): filter
(always excluding soft-deleted rows), count, sort — with `sort_by` and
`sort_order` interpolated verbatim, no validation — and paginate. -/
def get_media_data (table : List MediaRow)
    (media_type pipeline_status rejection_status : Option String)
    (error_status : Option Bool) (imdb_id media_title hash : Option String)
    (limit offset : Nat) (sort_by sort_order : String) : MediaListResult :=
  let matching := table.filter
    (mediaRowMatches media_type pipeline_status rejection_status error_status
      imdb_id media_title hash)
  let total := matching.length
  let sorted := matching.mergeSort
    (orderByLe (mediaFieldLe (mediaSortBy sort_by)) (mediaSortOrder sort_order)
      (fun a b => strLe a.hash b.hash))
  { data := (sorted.drop offset).take limit,
    pagination :=
      { total := total, limit := limit, offset := offset,
        has_more := offset + limit < total } }

/-- Result dictionary of `soft_delete_media` (the store method). -/
structure SoftDeleteResult where
  success : Bool
  error : Option String := none
  message : String
  hashResult : Option String := none
deriving DecidableEq

/-- `DatabaseService.soft_delete_media` (db_service.py:798-856): select
the row's `deleted_at` by hash (soft-deleted rows included), fail with
"Media not found" if absent and "Already deleted" if non-null, otherwise
set `deleted_at` and `updated_at` to the current UTC instant. -/
def soft_delete_media (table : List MediaRow) (now : Nat) (hash : String) :
    SoftDeleteResult × List MediaRow × List Event :=
  match table.find? (fun r => r.hash == hash) with
  | none =>
    ({ success := false, error := some "Media not found",
       message := "No media found with hash: " ++ hash },
     table, [Event.dbSelectMedia hash])
  | some r =>
    match r.deleted_at with
    | some t =>
      ({ success := false, error := some "Already deleted",
         message := "Media already deleted at: " ++ Nat.repr t },
       table, [Event.dbSelectMedia hash])
    | none =>
      ({ success := true, message := "Media soft deleted successfully",
         hashResult := some hash },
       table.map (fun q => if q.hash == hash then
         { q with deleted_at := some now, updated_at := now } else q),
       [Event.dbSelectMedia hash, Event.dbUpdateMedia hash])

/-- `DatabaseService.update_media_pipeline` (db_service.py:604-688):
existence check, dynamic field list over the three statuses and the
error-condition clear, `UPDATE` plus `updated_at`. -/
def update_media_pipeline (table : List MediaRow) (now : Nat) (hash : String)
    (pipeline_status : Option String) (error_status : Option Bool)
    (rejection_status : Option String) (clear_error_condition : Bool) :
    SoftDeleteResult × List MediaRow × List Event :=
  if table.any (fun r => r.hash == hash) then
    if pipeline_status.isNone && error_status.isNone && rejection_status.isNone
        && !clear_error_condition then
      ({ success := false, error := some "No fields to update",
         message := "At least one field must be provided for update" },
       table, [Event.dbSelectMedia hash])
    else
      ({ success := true, message := "Media pipeline status updated successfully" },
       table.map (fun r => if r.hash == hash then
         { r with
           pipeline_status := pipeline_status.getD r.pipeline_status,
           error_status := error_status.getD r.error_status,
           rejection_status := rejection_status.getD r.rejection_status,
           error_condition := if clear_error_condition then none else r.error_condition,
           updated_at := now } else r),
       [Event.dbSelectMedia hash, Event.dbUpdateMedia hash])
  else
    ({ success := false, error := some "Media not found",
       message := "No media found with hash: " ++ hash },
     table, [Event.dbSelectMedia hash])

/-! ## Prediction store (`atp.prediction`) -/

/-- A row of `atp.prediction` (the `probability` column is read-only data
never filtered on; it is omitted and sorts as `created_at`). -/
structure PredictionRow where
  imdb_id : String
  prediction : Nat
  cm_value : String
  created_at : Nat
deriving DecidableEq

/-- Result of `get_prediction_data`. -/
structure PredictionListResult where
  data : List PredictionRow
  pagination : PaginationHasMore
deriving DecidableEq

/-- The `WHERE` clause of `get_prediction_data` (db_service.py:718-733). -/
def predictionRowMatches (imdb_id : Option String) (prediction : Option Nat)
    (cm_value : Option String) (r : PredictionRow) : Bool :=
  (if optStrTruthy imdb_id then decide (r.imdb_id = imdb_id.getD "") else true) &&
  (match prediction with | none => true | some p => r.prediction == p) &&
  (if optStrTruthy cm_value then decide (r.cm_value = cm_value.getD "") else true)

/-- Comparison on the prediction sort column. -/
def predictionFieldLe (f : String) (a b : PredictionRow) : Bool :=
  if f = "imdb_id" then strLe a.imdb_id b.imdb_id
  else if f = "prediction" then decide (a.prediction ≤ b.prediction)
  else if f = "cm_value" then strLe a.cm_value b.cm_value
  else decide (a.created_at ≤ b.created_at)

/-- `DatabaseService.get_prediction_data` (db_service.py:690-796). -/
def get_prediction_data (table : List PredictionRow)
    (imdb_id : Option String) (prediction : Option Nat) (cm_value : Option String)
    (limit offset : Nat) (sort_by sort_order : String) : PredictionListResult :=
  let matching := table.filter (predictionRowMatches imdb_id prediction cm_value)
  let total := matching.length
  let sorted := matching.mergeSort
    (orderByLe (predictionFieldLe (predictionSortBy sort_by))
      (predictionSortOrder sort_order) (fun a b => strLe a.imdb_id b.imdb_id))
  { data := (sorted.drop offset).take limit,
    pagination :=
      { total := total, limit := limit, offset := offset,
        has_more := offset + limit < total } }

/-! ## Movie view (`atp.movies`) -/

/-- A row of the derived `atp.movies` view (filterable columns only; the
remaining metadata columns sort as `training_created_at`). -/
structure MovieRow where
  imdb_id : String
  label : Option String
  media_type : String
  media_title : String
  release_year : Option Nat
  human_labeled : Bool
  anomalous : Bool
  reviewed : Bool
  prediction : Option Nat
  cm_value : Option String
  training_created_at : Nat
  training_updated_at : Nat
deriving DecidableEq

/-- Result of `get_movie_data`. -/
structure MovieListResult where
  data : List MovieRow
  pagination : PaginationHasMore
deriving DecidableEq

/-- The `WHERE` clause of `get_movie_data` (db_service.py:955-1000). -/
def movieRowMatches (media_type label : Option String)
    (reviewed human_labeled anomalous : Option Bool)
    (imdb_ids : Option (List String)) (prediction : Option Nat)
    (cm_value media_title : Option String) (release_year : Option Nat)
    (r : MovieRow) : Bool :=
  (if optStrTruthy media_type then decide (r.media_type = media_type.getD "") else true) &&
  (if optStrTruthy label then decide (r.label = some (label.getD "")) else true) &&
  (match reviewed with | none => true | some b => r.reviewed == b) &&
  (match human_labeled with | none => true | some b => r.human_labeled == b) &&
  (match anomalous with | none => true | some b => r.anomalous == b) &&
  (if optListTruthy imdb_ids then decide (r.imdb_id ∈ imdb_ids.getD []) else true) &&
  (match prediction with | none => true | some p => r.prediction == some p) &&
  (if optStrTruthy cm_value then decide (r.cm_value = some (cm_value.getD "")) else true) &&
  (if optStrTruthy media_title then
    strContains (pyLower r.media_title) (pyLower (media_title.getD "")) else true) &&
  (match release_year with | none => true | some y => r.release_year == some y)

/-- Comparison on the movie sort column. -/
def movieFieldLe (f : String) (a b : MovieRow) : Bool :=
  if f = "imdb_id" then strLe a.imdb_id b.imdb_id
  else if f = "media_title" then strLe a.media_title b.media_title
  else if f = "training_updated_at" then decide (a.training_updated_at ≤ b.training_updated_at)
  else decide (a.training_created_at ≤ b.training_created_at)

/-- `DatabaseService.get_movie_data` (db_service.py:913-1085). -/
def get_movie_data (table : List MovieRow)
    (media_type label : Option String)
    (reviewed human_labeled anomalous : Option Bool)
    (imdb_ids : Option (List String)) (prediction : Option Nat)
    (cm_value media_title : Option String) (release_year : Option Nat)
    (limit offset : Nat) (sort_by sort_order : String) : MovieListResult :=
  let matching := table.filter
    (movieRowMatches media_type label reviewed human_labeled anomalous imdb_ids
      prediction cm_value media_title release_year)
  let total := matching.length
  let sorted := matching.mergeSort
    (orderByLe (movieFieldLe (movieSortBy sort_by)) (movieSortOrder sort_order)
      (fun a b => strLe a.imdb_id b.imdb_id))
  { data := (sorted.drop offset).take limit,
    pagination :=
      { total := total, limit := limit, offset := offset,
        has_more := offset + limit < total } }

/-! ## Library filesystem gateway (`services/file_service.py`)

The filesystem is an oracle: `kind` says what each path currently is and
`delOutcome` what the OS does when deletion of that path is attempted
(`ok`, raise `PermissionError`, or raise another exception). -/

/-- What a filesystem path resolves to. -/
inductive PathKind
  | missing
  | file
  | dir
  | other
deriving DecidableEq

/-- What the OS does when asked to delete an existing path. -/
inductive DeleteOutcome
  | ok
  | permError
  | otherError (msg : String)
deriving DecidableEq

/-- A filesystem state, as observed/acted on by the gateway. -/
structure FileSys where
  kind : String → PathKind
  delOutcome : String → DeleteOutcome

/-- The settings the file service copies at construction
(file_service.py:16-21, paths already `rstrip('/')`-ed). -/
structure FileConfig where
  file_deletion_enabled : Bool
  cache_path : String
  library_path_movies : String
  library_path_tv : String
deriving DecidableEq

/-- Result dictionary of `FileService._delete_path`. `exists'` renders the
source's `exists` key (a reserved word in Lean). -/
structure DeleteResult where
  exists' : Bool
  deleted : Bool
  error : Option String := none
  path : Option String := none
deriving DecidableEq

/-- `FileService._delete_path` (file_service.py:23-57): existence check,
unlink/rmtree with `PermissionError` and generic exceptions caught and
turned into an `error` entry — the function never raises. -/
def delete_path (fs : FileSys) (path : String) : DeleteResult :=
  match fs.kind path with
  | PathKind.missing => { exists' := false, deleted := false }
  | PathKind.other =>
    { exists' := true, deleted := false, error := some "Not a file or directory" }
  | _ =>
    match fs.delOutcome path with
    | DeleteOutcome.ok => { exists' := true, deleted := true, path := some path }
    | DeleteOutcome.permError =>
      { exists' := true, deleted := false, error := some ("Permission denied: " ++ path) }
    | DeleteOutcome.otherError msg =>
      { exists' := true, deleted := false, error := some msg }

/-- `os.path.join` for two POSIX components. -/
def ospJoin (a b : String) : String :=
  if b.data.head? = some '/' then b
  else if a = "" then b
  else if a.data.getLast? = some '/' then a ++ b
  else a ++ "/" ++ b

/-- Result dictionary of `FileService.delete_media`. The source never puts
a `warning` key in this dictionary; the field is carried (and provably
always `none`) because callers and the spec talk about it. -/
structure MediaDeleteResult where
  success : Bool
  deleted : Bool
  message : String
  warning : Option String := none
  paths : List String := []
deriving DecidableEq

/-- The `paths_to_try` list of `FileService.delete_media`
(file_service.py:79-103): cache incomplete, cache complete, library, and
the original DB path if not already present. -/
def delete_media_paths (cfg : FileConfig) (media_type db_parent_path db_target_path : String) :
    List String :=
  let library_base :=
    if media_type = "movie" then cfg.library_path_movies else cfg.library_path_tv
  let base :=
    (if cfg.cache_path ≠ "" then
      [ospJoin (ospJoin cfg.cache_path "incomplete") db_target_path] else []) ++
    (if cfg.cache_path ≠ "" then
      [ospJoin (ospJoin cfg.cache_path "complete") db_target_path] else []) ++
    (if library_base ≠ "" then [ospJoin library_base db_target_path] else [])
  let full_db_path := ospJoin db_parent_path db_target_path
  if full_db_path ∈ base then base else base ++ [full_db_path]

/-- `FileService.delete_media` (file_service.py:59-127): short-circuit
when deletion is disabled, try every candidate path, report the deleted
ones; `success` is `true` on every branch. -/
def delete_media (cfg : FileConfig) (fs : FileSys)
    (db_parent_path db_target_path media_type : String) : MediaDeleteResult :=
  if !cfg.file_deletion_enabled then
    { success := true, deleted := false, message := "File deletion is disabled" }
  else
    let paths_to_try := delete_media_paths cfg media_type db_parent_path db_target_path
    let deleted_paths := paths_to_try.filter (fun p => (delete_path fs p).deleted)
    if !deleted_paths.isEmpty then
      { success := true, deleted := true,
        message := "Deleted " ++ Nat.repr deleted_paths.length ++ " path(s)",
        paths := deleted_paths }
    else
      { success := true, deleted := false,
        message := "No files found in any location for: " ++ db_target_path }

/-- `FileService.delete_directory` (file_service.py:130-138): detect the
media type from the parent path and delegate. -/
def delete_directory (cfg : FileConfig) (fs : FileSys)
    (db_parent_path db_target_path : String) : MediaDeleteResult :=
  let media_type := if strContains db_parent_path "/movies" then "movie" else "tv"
  delete_media cfg fs db_parent_path db_target_path media_type

/-! ## Download-daemon gateway (`services/transmission_service.py`)

The daemon is an oracle giving, per RPC call, either a result, a raised
`TransmissionError`, or another raised exception. -/

/-- Outcome of one RPC call against the daemon. -/
inductive RpcOutcome (α : Type)
  | ok (a : α)
  | trErr (msg : String)
  | exc (msg : String)
deriving DecidableEq

/-- The daemon's behaviour: client construction, `get_torrent` (returning
the torrent's display name), `remove_torrent`, `add_torrent`. -/
structure Daemon where
  connect : RpcOutcome Unit
  torrent : String → RpcOutcome String
  removal : String → Bool → RpcOutcome Unit
  adding : String → RpcOutcome String

/-- Result dictionary of `TransmissionService.remove_torrent`. -/
structure RemoveResult where
  success : Bool
  found : Bool
  error : Option String := none
  message : String
  torrent_name : Option String := none
deriving DecidableEq

/-- `TransmissionService.remove_torrent` (transmission_service.py:55-106):
absent torrent is success/not-found; `TransmissionError` and any other
exception are caught into structured failure results — never raised. -/
def remove_torrent (d : Daemon) (hash : String) (delete_data : Bool) :
    RemoveResult × List Event :=
  match d.connect with
  | RpcOutcome.trErr m =>
    ({ success := false, found := false, error := some "Transmission error",
       message := m }, [Event.rpcConnect])
  | RpcOutcome.exc m =>
    ({ success := false, found := false, error := some "Connection error",
       message := m }, [Event.rpcConnect])
  | RpcOutcome.ok _ =>
    match d.torrent hash with
    | RpcOutcome.trErr _ =>
      ({ success := true, found := false,
         message := "Torrent not found in Transmission: " ++ hash },
       [Event.rpcConnect, Event.rpcGetTorrent hash])
    | RpcOutcome.exc m =>
      ({ success := false, found := false, error := some "Connection error",
         message := m }, [Event.rpcConnect, Event.rpcGetTorrent hash])
    | RpcOutcome.ok torrent_name =>
      match d.removal hash delete_data with
      | RpcOutcome.ok _ =>
        ({ success := true, found := true,
           message := "Torrent removed from Transmission: " ++ torrent_name,
           torrent_name := some torrent_name },
         [Event.rpcConnect, Event.rpcGetTorrent hash,
          Event.rpcRemoveTorrent hash delete_data])
      | RpcOutcome.trErr m =>
        ({ success := false, found := false, error := some "Transmission error",
           message := m },
         [Event.rpcConnect, Event.rpcGetTorrent hash,
          Event.rpcRemoveTorrent hash delete_data])
      | RpcOutcome.exc m =>
        ({ success := false, found := false, error := some "Connection error",
           message := m },
         [Event.rpcConnect, Event.rpcGetTorrent hash,
          Event.rpcRemoveTorrent hash delete_data])

/-- Result dictionary of `TransmissionService.add_torrent`. -/
structure AddResult where
  success : Bool
  already_exists : Bool
  error : Option String := none
  message : String
  torrent_name : Option String := none
deriving DecidableEq

/-- The `except TransmissionError` handler of `add_torrent`
(transmission_service.py:148-164): a message whose lower-casing contains
"duplicate" or "already" is downgraded to success/already-exists. -/
def addTrErrHandler (m : String) : AddResult :=
  let error_msg := pyLower m
  if strContains error_msg "duplicate" || strContains error_msg "already" then
    { success := true, already_exists := true,
      message := "Torrent already exists in Transmission" }
  else
    { success := false, already_exists := false, error := some "Transmission error",
      message := m }

/-- The generic `except Exception` handler of `add_torrent`
(transmission_service.py:165-172). -/
def addExcHandler (m : String) : AddResult :=
  { success := false, already_exists := false, error := some "Connection error",
    message := m }

/-- The add attempt itself (`client.add_torrent(torrent_link)` and the
surrounding handlers), with the events executed so far prefixed. -/
def add_torrent_issue (d : Daemon) (torrent_link : String) (evs : List Event) :
    AddResult × List Event :=
  match d.adding torrent_link with
  | RpcOutcome.ok torrent_name =>
    ({ success := true, already_exists := false,
       message := "Torrent added successfully: " ++ torrent_name,
       torrent_name := some torrent_name },
     evs ++ [Event.rpcAddTorrent torrent_link])
  | RpcOutcome.trErr m => (addTrErrHandler m, evs ++ [Event.rpcAddTorrent torrent_link])
  | RpcOutcome.exc m => (addExcHandler m, evs ++ [Event.rpcAddTorrent torrent_link])

/-- `TransmissionService.add_torrent` (transmission_service.py:108-172):
optional existence check by hash (Python-truthy), idempotent-add
short-circuit, duplicate-error downgrade, all exceptions caught. -/
def add_torrent (d : Daemon) (torrent_link : String) (hash : Option String) :
    AddResult × List Event :=
  match d.connect with
  | RpcOutcome.trErr m => (addTrErrHandler m, [Event.rpcConnect])
  | RpcOutcome.exc m => (addExcHandler m, [Event.rpcConnect])
  | RpcOutcome.ok _ =>
    if optStrTruthy hash then
      let h := hash.getD ""
      match d.torrent h with
      | RpcOutcome.ok existing_name =>
        ({ success := true, already_exists := true,
           message := "Torrent already exists: " ++ existing_name,
           torrent_name := some existing_name },
         [Event.rpcConnect, Event.rpcGetTorrent h])
      | RpcOutcome.trErr _ =>
        add_torrent_issue d torrent_link [Event.rpcConnect, Event.rpcGetTorrent h]
      | RpcOutcome.exc m =>
        (addExcHandler m, [Event.rpcConnect, Event.rpcGetTorrent h])
    else
      add_torrent_issue d torrent_link [Event.rpcConnect]

/-! ## Media router (`routers/media.py`) -/

/-- Body of `PATCH /media/{hash}/pipeline` (the router never forwards
`clear_error_condition`; it calls the store with its default `False`). -/
structure MediaPipelineUpdateRequest where
  hash : String
  pipeline_status : Option String := none
  error_status : Option Bool := none
  rejection_status : Option String := none
deriving DecidableEq

/-- Response of `PATCH /media/{hash}/pipeline`. -/
structure MediaPipelineUpdateResponse where
  success : Bool
  message : String
deriving DecidableEq

/-- `PATCH /media/{hash}/pipeline` handler (routers/media.py:73-120):
hash-mismatch check raising 400 before any store call, then the store
update, failures mapped to 404/400. -/
def updateMediaPipelineEndpoint (table : List MediaRow) (now : Nat)
    (hash : String) (request : MediaPipelineUpdateRequest) :
    (Except HttpError MediaPipelineUpdateResponse) × List MediaRow × List Event :=
  if request.hash ≠ hash then
    (Except.error
      { status := 400,
        detail := "Hash in URL path must match hash in request body" }, table, [])
  else
    let r := update_media_pipeline table now hash request.pipeline_status
      request.error_status request.rejection_status false
    if r.1.success then
      (Except.ok { success := true, message := r.1.message }, r.2.1, r.2.2)
    else
      (Except.error
        { status := if r.1.error = some "Media not found" then 404 else 400,
          detail := r.1.message }, r.2.1, r.2.2)

/-- Response of `PATCH /media/{hash}/soft_delete`. -/
structure MediaDeleteResponse where
  success : Bool
  message : String
  hash : String
deriving DecidableEq

/-- `PATCH /media/{hash}/soft_delete` handler (routers/media.py:122-163):
first attempt torrent removal with `delete_data=True` (outcome only
logged), then the authoritative soft-delete write; on write success the
message notes a *successful* removal, on write failure map
"Media not found" to 404 and "Already deleted" to 409. -/
def softDeleteEndpoint (daemon : Daemon) (table : List MediaRow) (now : Nat)
    (hash : String) :
    (Except HttpError MediaDeleteResponse) × List MediaRow × List Event :=
  let transmission_result := remove_torrent daemon hash true
  let r := soft_delete_media table now hash
  let events := transmission_result.2 ++ r.2.2
  if r.1.success then
    (Except.ok
      { success := true,
        message := r.1.message ++
          (if transmission_result.1.found then " (also removed from Transmission)" else ""),
        hash := hash }, r.2.1, events)
  else
    (Except.error
      { status :=
          if r.1.error = some "Already deleted" then 409
          else if r.1.error = some "Media not found" then 404
          else 400,
        detail := r.1.message }, r.2.1, events)

/-! ## Rejection orchestrator (`PATCH /training/{imdb_id}/reject`)

`DatabaseService.get_media_path_by_imdb_id`, called by the handler, is
not part of the sources under verification; the handler model therefore
takes the dictionary that call returns as an explicit parameter
(`PathResult`), so every theorem about the handler quantifies over every
possible return value of the missing method. -/

/-- The `data` dictionary of a successful `get_media_path_by_imdb_id`. -/
structure PathData where
  parent_path : Option String := none
  target_path : Option String := none
  original_link : Option String := none
deriving DecidableEq

/-- A return value of `get_media_path_by_imdb_id`. -/
structure PathResult where
  success : Bool
  data : PathData := {}
  message : Option String := none
deriving DecidableEq

/-- The file-deletion step of the reject handler
(routers/training.py:118-148), computing the `file_deleted` flag and the
optional `file_deletion_warning`. -/
def rejectFileFields (cfg : FileConfig) (fs : FileSys) (pr : PathResult) :
    Bool × Option String :=
  if pr.success then
    if optStrTruthy pr.data.parent_path && optStrTruthy pr.data.target_path then
      let deletion_result := delete_directory cfg fs
        (pr.data.parent_path.getD "") (pr.data.target_path.getD "")
      if deletion_result.deleted then (true, none)
      else if optStrTruthy deletion_result.warning then (false, deletion_result.warning)
      else (false,
        if deletion_result.message ≠ "" then some deletion_result.message else none)
    else (false, some "No path information available in media table")
  else (false, some (pr.message.getD "Could not retrieve media path"))

/-- The torrent-removal step of the reject handler
(routers/training.py:150-166): extract the trailing segment of
`original_link` as the hash and ask the gateway to remove it without
deleting data; report whether it was found. -/
def rejectTorrentRemoved (daemon : Daemon) (pr : PathResult) : Bool :=
  let original_link := if pr.success then pr.data.original_link else none
  match original_link with
  | none => false
  | some link =>
    if link = "" then false
    else
      let torrent_hash := lastSegment link
      if torrent_hash ≠ "" then (remove_torrent daemon torrent_hash false).1.found
      else false

/-- `PATCH /training/{imdb_id}/reject` handler
(routers/training.py:95-168): authoritative label write (404 when the row
is absent), then best-effort file deletion and torrent removal recorded
as response fields. -/
def rejectEndpoint (cfg : FileConfig) (fs : FileSys) (daemon : Daemon)
    (table : List TrainingRow) (now : Nat) (pr : PathResult) (imdb_id : String) :
    (Except HttpError TrainingUpdateResponseBody) × List TrainingRow :=
  let u := update_training_fields table now imdb_id (some "would_not_watch") none none none
  if !u.1.success then
    if u.1.error = some "Training data not found" then
      (Except.error { status := 404, detail := u.1.message }, u.2.1)
    else (Except.ok (bodyOfUpdateResult u.1), u.2.1)
  else
    let ff := rejectFileFields cfg fs pr
    (Except.ok { bodyOfUpdateResult u.1 with
       file_deleted := some ff.1,
       file_deletion_warning := ff.2,
       torrent_removed := some (rejectTorrentRemoved daemon pr) }, u.2.1)

/-! ## Concrete fixtures used by witnesses and counterexamples -/

/-- A filesystem on which every path is a directory whose deletion the OS
refuses with a `PermissionError`. -/
def fsAllPermDenied : FileSys :=
  { kind := fun _ => PathKind.dir, delOutcome := fun _ => DeleteOutcome.permError }

/-- A file-service configuration with deletion enabled and no cache or
library roots configured. -/
def cfgDeletionEnabled : FileConfig :=
  { file_deletion_enabled := true, cache_path := "", library_path_movies := "",
    library_path_tv := "" }

/-- A daemon whose client construction fails with a connectivity
exception. -/
def daemonConnFail : Daemon :=
  { connect := RpcOutcome.exc "connection refused",
    torrent := fun _ => RpcOutcome.trErr "not found",
    removal := fun _ _ => RpcOutcome.ok (),
    adding := fun _ => RpcOutcome.trErr "unreachable" }

/-- A healthy daemon that knows one torrent named `T` under every hash. -/
def daemonWithTorrent : Daemon :=
  { connect := RpcOutcome.ok (),
    torrent := fun _ => RpcOutcome.ok "T",
    removal := fun _ _ => RpcOutcome.ok (),
    adding := fun _ => RpcOutcome.ok "T" }

/-- A live (never soft-deleted) media row. -/
def mediaRowLive : MediaRow :=
  ⟨"aaa111", "movie", "T", "downloaded", false, none, "accepted",
   none, none, none, none, none, 0, 0⟩

/-- An unlabeled training row. -/
def trainingRowUnlabeled : TrainingRow :=
  ⟨"tt0000001", none, "movie", "X", false, false, false, 0, 0⟩

/-- A path-resolution result with full path data for the reject flow. -/
def prPathsAvailable : PathResult :=
  { success := true,
    data := { parent_path := some "/mnt/lib/movies",
              target_path := some "movie-x",
              original_link := some "http://host/torrents/abcdef" } }

/-! ## Helper lemmas -/

/-- Shape of one row after an update whose patch set includes `label`. -/
theorem applyTrainingUpdate_of_label (l : String) (hl an rv : Option Bool)
    (now : Nat) (r : TrainingRow) :
    (applyTrainingUpdate (some l) hl an rv now r).label = some l ∧
    (applyTrainingUpdate (some l) hl an rv now r).human_labeled = true ∧
    (applyTrainingUpdate (some l) hl an rv now r).reviewed = true := by
  cases hl <;> cases an <;> cases rv <;> simp [applyTrainingUpdate]

/-- A patch set that includes `label` is never empty. -/
theorem trainingUpdateSetList_label_ne_nil (l : String) (hl an rv : Option Bool) :
    (trainingUpdateSetList (some l) hl an rv).isEmpty = false := by
  cases hl <;> cases an <;> cases rv <;> simp [trainingUpdateSetList]

/-- `update_training_fields` with `label` in the patch set, on an existing
row: the update succeeds and every stored row with the identifier ends up
with the new label, `human_labeled = true` and `reviewed = true`. -/
theorem update_training_fields_label (table : List TrainingRow) (now : Nat)
    (imdb_id l : String) (hl an rv : Option Bool)
    (hrow : (table.any fun r => r.imdb_id == imdb_id) = true) :
    (update_training_fields table now imdb_id (some l) hl an rv).1.success = true ∧
    ∀ r ∈ (update_training_fields table now imdb_id (some l) hl an rv).2.1,
      r.imdb_id = imdb_id →
      r.label = some l ∧ r.human_labeled = true ∧ r.reviewed = true := by
  unfold update_training_fields
  simp only [hrow, if_true, trainingUpdateSetList_label_ne_nil,
    Bool.false_eq_true, if_false]
  refine ⟨by trivial, ?_⟩
  intro r hr hid
  rw [List.mem_map] at hr
  obtain ⟨a, _, rfl⟩ := hr
  by_cases hc : (a.imdb_id == imdb_id) = true
  · simp only [hc, if_true]
    exact applyTrainingUpdate_of_label l hl an rv now a
  · rw [if_neg hc] at hid ⊢
    exact absurd (beq_iff_eq.mpr hid) hc

/-- A validated sort field is always in the allow-list when the default
is. -/
theorem validateSortBy_mem (valid : List String) (dflt s : String)
    (hd : dflt ∈ valid) : validateSortBy valid dflt s ∈ valid := by
  unfold validateSortBy
  split
  · assumption
  · exact hd

/-- An unrecognized sort field falls back to the default. -/
theorem validateSortBy_not_mem (valid : List String) (dflt s : String)
    (hs : s ∉ valid) : validateSortBy valid dflt s = dflt := by
  unfold validateSortBy
  rw [if_neg]
  intro h
  exact hs h

/-- A validated sort order is always `asc` or `desc` when the default is
`desc`. -/
theorem validateSortOrder_desc (s : String) :
    validateSortOrder "desc" s = "asc" ∨ validateSortOrder "desc" s = "desc" := by
  unfold validateSortOrder
  split
  · assumption
  · exact Or.inr rfl

/-- An unrecognized sort order falls back to the default. -/
theorem validateSortOrder_fallback (dflt s : String)
    (h1 : pyLower s ≠ "asc") (h2 : pyLower s ≠ "desc") :
    validateSortOrder dflt s = dflt := by
  unfold validateSortOrder
  rw [if_neg]
  rintro (h | h)
  · exact h1 h
  · exact h2 h

/-! ## Claim theorems -/

/-- C2 counterexample: the media listing operation (`get_media_data`)
interpolates its `sort_by`/`sort_order` arguments verbatim into the query
text, so for this concrete input the interpolated `sort_by` is neither a
member of the media allow-list nor replaced by the documented default
`created_at`, and the interpolated `sort_order` is neither `asc` nor
`desc` — contrary to the claim that every listing operation validates
both before interpolation. -/
theorem media_sort_interpolated_verbatim_cex :
    mediaSortBy "1; drop table atp.media --" = "1; drop table atp.media --" ∧
    "1; drop table atp.media --" ∉ mediaRouterSortFields ∧
    mediaSortBy "1; drop table atp.media --" ≠ "created_at" ∧
    mediaSortOrder "evil" = "evil" ∧
    mediaSortOrder "evil" ≠ "asc" ∧ mediaSortOrder "evil" ≠ "desc" :=
  ⟨rfl, by decide, by decide, rfl, by decide, by decide⟩

/-- C2 (amended): the training, prediction and movie-view listing
operations interpolate a `sort_by` that is always a member of the
entity's fixed allow-list (unrecognized values silently replaced by the
documented default, never an error) and a `sort_order` that is always
`asc` or `desc` (anything else becomes `desc`); the media listing
operation interpolates both arguments verbatim, with no validation of its
own — only the media router's regex keeps them to a fixed set, by
rejecting anything else as a validation error rather than falling back. -/
theorem sort_interpolation_allowlists (s : String) :
    (trainingSortBy s ∈ trainingValidSortFields ∧
      (s ∉ trainingValidSortFields → trainingSortBy s = "created_at")) ∧
    (predictionSortBy s ∈ predictionValidSortFields ∧
      (s ∉ predictionValidSortFields → predictionSortBy s = "created_at")) ∧
    (movieSortBy s ∈ movieValidSortFields ∧
      (s ∉ movieValidSortFields → movieSortBy s = "training_created_at")) ∧
    (trainingSortOrder s = "asc" ∨ trainingSortOrder s = "desc") ∧
    (predictionSortOrder s = "asc" ∨ predictionSortOrder s = "desc") ∧
    (movieSortOrder s = "asc" ∨ movieSortOrder s = "desc") ∧
    (pyLower s ≠ "asc" → pyLower s ≠ "desc" → trainingSortOrder s = "desc") ∧
    mediaSortBy s = s ∧ mediaSortOrder s = s := by
  refine ⟨⟨validateSortBy_mem _ _ _ (by decide), validateSortBy_not_mem _ _ _⟩,
    ⟨validateSortBy_mem _ _ _ (by decide), validateSortBy_not_mem _ _ _⟩,
    ⟨validateSortBy_mem _ _ _ (by decide), validateSortBy_not_mem _ _ _⟩,
    validateSortOrder_desc s, validateSortOrder_desc s, validateSortOrder_desc s,
    validateSortOrder_fallback _ s, rfl, rfl⟩

/-- C2 witness: an unrecognized input falls back to the training default
and passes through the media listing unchanged. -/
theorem sort_interpolation_allowlists_witness :
    trainingSortBy "bogus" = "created_at" ∧ mediaSortBy "bogus" = "bogus" :=
  ⟨(sort_interpolation_allowlists "bogus").1.2 (by decide),
   (sort_interpolation_allowlists "bogus").2.2.2.2.2.2.2.1⟩

/-- C3: for every training field-update whose patch set includes `label`
— whatever other fields are supplied and whatever their values, including
an explicit `human_labeled = false` or `reviewed = false` in the same
request — the update succeeds on an existing row and every persisted row
with the identifier has the new label together with
`human_labeled = true` and `reviewed = true`, set in the same update. -/
theorem label_update_forces_flags (table : List TrainingRow) (now : Nat)
    (imdb_id l : String) (hl an rv : Option Bool)
    (hrow : (table.any fun r => r.imdb_id == imdb_id) = true) :
    (update_training_fields table now imdb_id (some l) hl an rv).1.success = true ∧
    ∀ r ∈ (update_training_fields table now imdb_id (some l) hl an rv).2.1,
      r.imdb_id = imdb_id →
      r.label = some l ∧ r.human_labeled = true ∧ r.reviewed = true :=
  update_training_fields_label table now imdb_id l hl an rv hrow

/-- C3 witness: concrete update carrying `label` together with explicit
`human_labeled = false` and `reviewed = false`. -/
theorem label_update_forces_flags_witness :
    (update_training_fields
      [⟨"tt0000001", none, "movie", "X", false, false, false, 0, 0⟩]
      5 "tt0000001" (some "would_not_watch") (some false) none (some false)).1.success = true ∧
    ∀ r ∈ (update_training_fields
      [⟨"tt0000001", none, "movie", "X", false, false, false, 0, 0⟩]
      5 "tt0000001" (some "would_not_watch") (some false) none (some false)).2.1,
      r.imdb_id = "tt0000001" →
      r.label = some "would_not_watch" ∧ r.human_labeled = true ∧ r.reviewed = true :=
  label_update_forces_flags
    [⟨"tt0000001", none, "movie", "X", false, false, false, 0, 0⟩]
    5 "tt0000001" "would_not_watch" (some false) none (some false) (by decide)

/-- C10: a training-listing `imdb_id` query parameter whose
comma-separated segments are all empty or whitespace is treated exactly
as an omitted `imdb_id` filter: the handler produces the same result as
with no `imdb_id` restriction at all. -/
theorem blank_imdb_ids_ignored (table : List TrainingRow)
    (media_type label : Option String)
    (reviewed human_labeled anomalous : Option Bool)
    (s : String) (media_title : Option String) (limit offset : Nat)
    (sort_by sort_order : String)
    (hblank : ∀ t ∈ pySplit ',' s, pyStrip t = "") :
    getTrainingEndpoint table media_type label reviewed human_labeled anomalous
      (some s) media_title limit offset sort_by sort_order =
    getTrainingEndpoint table media_type label reviewed human_labeled anomalous
      none media_title limit offset sort_by sort_order := by
  unfold getTrainingEndpoint
  have hp : parseImdbIds (some s) = none ∨
      parseImdbIds (some s) = some ([] : List String) := by
    by_cases hs : s = ""
    · left
      simp [parseImdbIds, hs]
    · right
      have hf : (pySplit ',' s).filter (fun t => pyStrip t ≠ "") = [] := by
        rw [List.filter_eq_nil_iff]
        intro t ht
        simp [hblank t ht]
      simp only [parseImdbIds, if_neg hs, hf, List.map_nil]
  have hm : trainingRowMatches media_type label reviewed human_labeled anomalous
      (some ([] : List String)) media_title =
      trainingRowMatches media_type label reviewed human_labeled anomalous
        none media_title :=
    funext fun _ => rfl
  rcases hp with h | h
  · rw [h]
    rfl
  · rw [h]
    simp only [get_training_data, hm, parseImdbIds]

/-- C10 witness: `" , "` behaves as an omitted filter. -/
theorem blank_imdb_ids_ignored_witness :
    getTrainingEndpoint [] none none none none none (some " , ") none
      10 0 "created_at" "desc" =
    getTrainingEndpoint [] none none none none none none none
      10 0 "created_at" "desc" :=
  blank_imdb_ids_ignored [] none none none none none " , " none
    10 0 "created_at" "desc" (by decide)

/-- A page of results is never longer than the `LIMIT`. -/
theorem page_length_le {α : Type} (l : List α) (limit offset : Nat) :
    ((l.drop offset).take limit).length ≤ limit := by
  rw [List.length_take]
  exact inf_le_left

/-- A row on a returned page belongs to the filtered list the page was cut
from. -/
theorem mem_of_mem_page {α : Type} {a : α} {l : List α} {le : α → α → Bool}
    {limit offset : Nat} (h : a ∈ ((l.mergeSort le).drop offset).take limit) :
    a ∈ l :=
  ((List.mergeSort_perm l le).mem_iff).mp
    (List.mem_of_mem_drop (List.mem_of_mem_take h))

/-- C7: for every listing operation (training, media, prediction, movie
view) and every combination of filters, limit and offset, the returned
data has length at most `limit`, `pagination.total` equals the number of
table rows satisfying the same filter predicate with no limit or offset
applied, and every returned row satisfies that predicate — for media,
with soft-deleted rows excluded from the data and from the total alike. -/
theorem listing_pagination_contract :
    (∀ (table : List TrainingRow) (mt lb : Option String)
       (rv hl an : Option Bool) (ids : Option (List String))
       (mtitle : Option String) (limit offset : Nat) (sb so : String),
      (get_training_data table mt lb rv hl an ids mtitle limit offset sb so).data.length
        ≤ limit ∧
      (get_training_data table mt lb rv hl an ids mtitle limit offset sb so).pagination.total
        = table.countP (trainingRowMatches mt lb rv hl an ids mtitle) ∧
      ∀ r ∈ (get_training_data table mt lb rv hl an ids mtitle limit offset sb so).data,
        trainingRowMatches mt lb rv hl an ids mtitle r = true) ∧
    (∀ (table : List MediaRow) (mt ps rs : Option String) (es : Option Bool)
       (iid mtitle hsh : Option String) (limit offset : Nat) (sb so : String),
      (get_media_data table mt ps rs es iid mtitle hsh limit offset sb so).data.length
        ≤ limit ∧
      (get_media_data table mt ps rs es iid mtitle hsh limit offset sb so).pagination.total
        = table.countP (mediaRowMatches mt ps rs es iid mtitle hsh) ∧
      ∀ r ∈ (get_media_data table mt ps rs es iid mtitle hsh limit offset sb so).data,
        mediaRowMatches mt ps rs es iid mtitle hsh r = true ∧ r.deleted_at = none) ∧
    (∀ (table : List PredictionRow) (iid : Option String) (pd : Option Nat)
       (cm : Option String) (limit offset : Nat) (sb so : String),
      (get_prediction_data table iid pd cm limit offset sb so).data.length ≤ limit ∧
      (get_prediction_data table iid pd cm limit offset sb so).pagination.total
        = table.countP (predictionRowMatches iid pd cm) ∧
      ∀ r ∈ (get_prediction_data table iid pd cm limit offset sb so).data,
        predictionRowMatches iid pd cm r = true) ∧
    (∀ (table : List MovieRow) (mt lb : Option String)
       (rv hl an : Option Bool) (ids : Option (List String)) (pd : Option Nat)
       (cm mtitle : Option String) (ry : Option Nat)
       (limit offset : Nat) (sb so : String),
      (get_movie_data table mt lb rv hl an ids pd cm mtitle ry limit offset sb so).data.length
        ≤ limit ∧
      (get_movie_data table mt lb rv hl an ids pd cm mtitle ry limit offset sb so).pagination.total
        = table.countP (movieRowMatches mt lb rv hl an ids pd cm mtitle ry) ∧
      ∀ r ∈ (get_movie_data table mt lb rv hl an ids pd cm mtitle ry limit offset sb so).data,
        movieRowMatches mt lb rv hl an ids pd cm mtitle ry r = true) := by
  refine ⟨?_, ?_, ?_, ?_⟩
  · intro table mt lb rv hl an ids mtitle limit offset sb so
    refine ⟨page_length_le _ _ _, (List.countP_eq_length_filter _ _).symm, ?_⟩
    intro r hr
    exact (List.mem_filter.mp (mem_of_mem_page hr)).2
  · intro table mt ps rs es iid mtitle hsh limit offset sb so
    refine ⟨page_length_le _ _ _, (List.countP_eq_length_filter _ _).symm, ?_⟩
    intro r hr
    have hm := (List.mem_filter.mp (mem_of_mem_page hr)).2
    refine ⟨hm, ?_⟩
    have := hm
    simp only [mediaRowMatches, Bool.and_eq_true] at this
    exact Option.isNone_iff_eq_none.mp this.2
  · intro table iid pd cm limit offset sb so
    refine ⟨page_length_le _ _ _, (List.countP_eq_length_filter _ _).symm, ?_⟩
    intro r hr
    exact (List.mem_filter.mp (mem_of_mem_page hr)).2
  · intro table mt lb rv hl an ids pd cm mtitle ry limit offset sb so
    refine ⟨page_length_le _ _ _, (List.countP_eq_length_filter _ _).symm, ?_⟩
    intro r hr
    exact (List.mem_filter.mp (mem_of_mem_page hr)).2

/-- C7 witness: the contract at a concrete training listing call. -/
theorem listing_pagination_contract_witness :
    (get_training_data [⟨"tt0000001", none, "movie", "X", false, false, false, 0, 0⟩]
      none none none none none none none 5 0 "created_at" "desc").data.length ≤ 5 :=
  (listing_pagination_contract.1
    [⟨"tt0000001", none, "movie", "X", false, false, false, 0, 0⟩]
    none none none none none none none 5 0 "created_at" "desc").1

/-- `find?` commutes with a map that does not change the predicate. -/
theorem find?_map_pred {α : Type} (f : α → α) (p : α → Bool)
    (hp : ∀ a, p (f a) = p a) (l : List α) :
    (l.map f).find? p = (l.find? p).map f := by
  have hpf : (p ∘ f) = p := funext hp
  rw [List.find?_map, hpf]

/-- C4: for every hash, soft-delete first checks existence (an absent row
yields the NotFound result) and the current `deleted_at`: a non-null
`deleted_at` fails with the AlreadyDeleted error — distinct from
NotFound, mapped by the handler to 409 rather than 404 — leaving the
table unchanged; otherwise it sets both `deleted_at` and `updated_at` to
the current instant, so an immediate second soft-delete of the same hash
fails with `success = false` and the AlreadyDeleted error. -/
theorem soft_delete_contract (table : List MediaRow) (now now2 : Nat)
    (h : String) (daemon : Daemon) :
    (table.find? (fun r => r.hash == h) = none →
      (soft_delete_media table now h).1.success = false ∧
      (soft_delete_media table now h).1.error = some "Media not found" ∧
      (soft_delete_media table now h).2.1 = table ∧
      ∃ e, (softDeleteEndpoint daemon table now h).1 = Except.error e ∧
        e.status = 404) ∧
    (∀ r, table.find? (fun r => r.hash == h) = some r → r.deleted_at.isSome = true →
      (soft_delete_media table now h).1.success = false ∧
      (soft_delete_media table now h).1.error = some "Already deleted" ∧
      (soft_delete_media table now h).2.1 = table ∧
      ∃ e, (softDeleteEndpoint daemon table now h).1 = Except.error e ∧
        e.status = 409) ∧
    (∀ r, table.find? (fun r => r.hash == h) = some r → r.deleted_at = none →
      (soft_delete_media table now h).1.success = true ∧
      (∀ q ∈ (soft_delete_media table now h).2.1, q.hash = h →
        q.deleted_at = some now ∧ q.updated_at = now) ∧
      (soft_delete_media (soft_delete_media table now h).2.1 now2 h).1.success = false ∧
      (soft_delete_media (soft_delete_media table now h).2.1 now2 h).1.error
        = some "Already deleted" ∧
      (soft_delete_media (soft_delete_media table now h).2.1 now2 h).2.1
        = (soft_delete_media table now h).2.1) := by
  refine ⟨?_, ?_, ?_⟩
  · intro hf
    have hres : soft_delete_media table now h
        = ({ success := false, error := some "Media not found",
             message := "No media found with hash: " ++ h },
           table, [Event.dbSelectMedia h]) := by
      unfold soft_delete_media
      rw [hf]
    refine ⟨by rw [hres], by rw [hres], by rw [hres],
      ⟨404, "No media found with hash: " ++ h⟩, ?_, rfl⟩
    simp [softDeleteEndpoint, hres]
  · intro r hf hd
    obtain ⟨t, ht⟩ := Option.isSome_iff_exists.mp hd
    have hres : soft_delete_media table now h
        = ({ success := false, error := some "Already deleted",
             message := "Media already deleted at: " ++ Nat.repr t },
           table, [Event.dbSelectMedia h]) := by
      unfold soft_delete_media
      rw [hf]
      simp only [ht]
    refine ⟨by rw [hres], by rw [hres], by rw [hres],
      ⟨409, "Media already deleted at: " ++ Nat.repr t⟩, ?_, rfl⟩
    simp [softDeleteEndpoint, hres]
  · intro r hf hd
    have hres : soft_delete_media table now h
        = ({ success := true, message := "Media soft deleted successfully",
             hashResult := some h },
           table.map (fun q => if q.hash == h then
             { q with deleted_at := some now, updated_at := now } else q),
           [Event.dbSelectMedia h, Event.dbUpdateMedia h]) := by
      unfold soft_delete_media
      rw [hf]
      simp only [hd]
    have hpred : ∀ q : MediaRow,
        ((fun q : MediaRow => q.hash == h)
          ((fun q : MediaRow => if q.hash == h then
            { q with deleted_at := some now, updated_at := now } else q) q))
        = ((fun q : MediaRow => q.hash == h) q) := by
      intro q
      by_cases hq : (q.hash == h) = true
      · simp only [if_pos hq]
      · simp only [if_neg hq]
    have hfind2 : ((soft_delete_media table now h).2.1).find? (fun q => q.hash == h)
        = some { r with deleted_at := some now, updated_at := now } := by
      rw [hres]
      rw [find?_map_pred (fun q : MediaRow => if q.hash == h then
            { q with deleted_at := some now, updated_at := now } else q)
          (fun q : MediaRow => q.hash == h) hpred table]
      rw [hf]
      have hr : (r.hash == h) = true := (List.find?_eq_some.mp hf).1
      rw [Option.map_some', if_pos hr]
    have hsecond : soft_delete_media ((soft_delete_media table now h).2.1) now2 h
        = ({ success := false, error := some "Already deleted",
             message := "Media already deleted at: " ++ Nat.repr now },
           (soft_delete_media table now h).2.1, [Event.dbSelectMedia h]) := by
      generalize hT : (soft_delete_media table now h).2.1 = T at hfind2 ⊢
      unfold soft_delete_media
      rw [hfind2]
    refine ⟨by rw [hres], ?_, by rw [hsecond], by rw [hsecond], by rw [hsecond]⟩
    intro q hq hqh
    rw [hres] at hq
    rw [List.mem_map] at hq
    obtain ⟨a, _, rfl⟩ := hq
    by_cases hc : (a.hash == h) = true
    · rw [if_pos hc] at hqh ⊢
      exact ⟨rfl, rfl⟩
    · rw [if_neg hc] at hqh ⊢
      exact absurd (beq_iff_eq.mpr hqh) hc

/-- C4 witness: first soft-delete of a live row succeeds; the immediate
second one fails with AlreadyDeleted and a 409 mapping exists for it. -/
theorem soft_delete_contract_witness :
    (soft_delete_media
      [⟨"aaa", "movie", "T", "downloaded", false, none, "accepted",
        none, none, none, none, none, 0, 0⟩] 5 "aaa").1.success = true ∧
    (soft_delete_media
      (soft_delete_media
        [⟨"aaa", "movie", "T", "downloaded", false, none, "accepted",
          none, none, none, none, none, 0, 0⟩] 5 "aaa").2.1 6 "aaa").1.error
      = some "Already deleted" := by
  have hc := (soft_delete_contract
    [⟨"aaa", "movie", "T", "downloaded", false, none, "accepted",
      none, none, none, none, none, 0, 0⟩] 5 6 "aaa"
    ⟨RpcOutcome.ok (), fun _ => RpcOutcome.trErr "absent",
     fun _ _ => RpcOutcome.ok (), fun _ => RpcOutcome.trErr "no"⟩).2.2
    ⟨"aaa", "movie", "T", "downloaded", false, none, "accepted",
      none, none, none, none, none, 0, 0⟩ (by decide) rfl
  exact ⟨hc.1, hc.2.2.2.1⟩

/-- The gateway delete operation reports `success = true` on every
branch. -/
theorem delete_media_success (cfg : FileConfig) (fs : FileSys)
    (p t m : String) : (delete_media cfg fs p t m).success = true := by
  unfold delete_media
  split
  · rfl
  · dsimp only
    split
    · rfl
    · rfl

/-- The gateway delete operation never produces a `warning` entry. -/
theorem delete_media_warning_none (cfg : FileConfig) (fs : FileSys)
    (p t m : String) : (delete_media cfg fs p t m).warning = none := by
  unfold delete_media
  split
  · rfl
  · dsimp only
    split
    · rfl
    · rfl

/-- When deletion is enabled but no candidate path gets deleted, the
gateway returns the generic not-found result. -/
theorem delete_media_not_deleted (cfg : FileConfig) (fs : FileSys)
    (p t m : String) (hen : cfg.file_deletion_enabled = true)
    (hnd : ∀ path, (delete_path fs path).deleted = false) :
    delete_media cfg fs p t m
      = { success := true, deleted := false,
          message := "No files found in any location for: " ++ t } := by
  unfold delete_media
  rw [hen]
  have hfilter : (delete_media_paths cfg m p t).filter
      (fun path => (delete_path fs path).deleted) = [] := by
    rw [List.filter_eq_nil_iff]
    intro a _
    simp [hnd a]
  simp only [Bool.not_true, Bool.false_eq_true, if_false, hfilter,
    List.isEmpty_nil, Bool.not_true]

/-- A path whose deletion raises `PermissionError` is never reported as
deleted, whatever it resolves to. -/
theorem delete_path_perm_not_deleted (fs : FileSys) (path : String)
    (hp : fs.delOutcome path = DeleteOutcome.permError) :
    (delete_path fs path).deleted = false := by
  unfold delete_path
  cases hk : fs.kind path <;> simp [hp]

/-- C5 counterexample: with deletion enabled, for a path that exists as a
directory and whose deletion the OS refuses with a permission error, the
gateway delete operation still returns `success = true` with no warning
entry — not the claimed `success = false, deleted = false` with a warning
describing the failure. -/
theorem delete_media_perm_error_cex :
    fsAllPermDenied.kind "/mnt/lib/movie-x" = PathKind.dir ∧
    fsAllPermDenied.delOutcome "/mnt/lib/movie-x" = DeleteOutcome.permError ∧
    delete_media cfgDeletionEnabled fsAllPermDenied "/mnt/lib" "movie-x" "movie"
      = { success := true, deleted := false,
          message := "No files found in any location for: movie-x" } ∧
    ¬ ((delete_media cfgDeletionEnabled fsAllPermDenied
        "/mnt/lib" "movie-x" "movie").success = false) :=
  ⟨rfl, rfl, by decide, by decide⟩

/-- C5 (amended): permission errors and any other OS-level failure during
deletion are caught — the gateway never raises — but are reported only at
the per-path level, as `deleted = false` with an `error` description
(`Permission denied: <path>` for a permission error); the gateway delete
operation itself returns `success = true` on every input and never sets a
warning, answering `deleted = false` with a generic informational
not-found message when nothing was deleted; a path that does not exist
yields the per-path result `exists = false, deleted = false` (existence
is checked, not assumed). -/
theorem file_gateway_failures_downgraded (cfg : FileConfig) (fs : FileSys)
    (p t m : String) :
    (delete_media cfg fs p t m).success = true ∧
    (delete_media cfg fs p t m).warning = none ∧
    ((∀ path, (delete_path fs path).deleted = false) →
      cfg.file_deletion_enabled = true →
      delete_media cfg fs p t m
        = { success := true, deleted := false,
            message := "No files found in any location for: " ++ t }) ∧
    (∀ path, fs.kind path = PathKind.missing →
      delete_path fs path = { exists' := false, deleted := false }) ∧
    (∀ path, fs.delOutcome path = DeleteOutcome.permError →
      (delete_path fs path).deleted = false ∧
      ((fs.kind path = PathKind.dir ∨ fs.kind path = PathKind.file) →
        (delete_path fs path).error = some ("Permission denied: " ++ path))) := by
  refine ⟨delete_media_success cfg fs p t m, delete_media_warning_none cfg fs p t m,
    ?_, ?_, ?_⟩
  · intro hnd hen
    exact delete_media_not_deleted cfg fs p t m hen hnd
  · intro path hk
    unfold delete_path
    rw [hk]
  · intro path hp
    refine ⟨delete_path_perm_not_deleted fs path hp, ?_⟩
    rintro (hk | hk) <;> · unfold delete_path; rw [hk, hp]

/-- C5 witness: the amended contract evaluated on the all-permission-denied
filesystem. -/
theorem file_gateway_failures_downgraded_witness :
    (delete_media cfgDeletionEnabled fsAllPermDenied "/mnt/lib" "movie-x" "movie")
      = { success := true, deleted := false,
          message := "No files found in any location for: movie-x" } ∧
    (delete_path fsAllPermDenied "/mnt/lib/movie-x").error
      = some "Permission denied: /mnt/lib/movie-x" := by
  have hc := file_gateway_failures_downgraded cfgDeletionEnabled fsAllPermDenied
    "/mnt/lib" "movie-x" "movie"
  refine ⟨hc.2.2.1 (fun path => delete_path_perm_not_deleted _ path rfl) rfl, ?_⟩
  exact ((hc.2.2.2.2 "/mnt/lib/movie-x" rfl).2 (Or.inl rfl))

/-- Every removal call begins by constructing the RPC client: its event
trace opens with `rpcConnect`. -/
theorem remove_torrent_events_head (d : Daemon) (h : String) (dd : Bool) :
    (remove_torrent d h dd).2.head? = some Event.rpcConnect := by
  unfold remove_torrent
  cases hc : d.connect with
  | trErr m => rfl
  | exc m => rfl
  | ok a =>
    cases ht : d.torrent h with
    | trErr m => rfl
    | exc m => rfl
    | ok n =>
      cases hr : d.removal h dd <;> rfl

/-- C6 counterexample: when the soft-delete write succeeds but the torrent
removal fails (here: the RPC client cannot even connect), the handler
returns the database write's plain success message with nothing appended —
the removal failure is not recorded in the message, contrary to the claim
that a torrent-removal failure is appended to the success message as an
informational note. -/
theorem soft_delete_failure_note_cex :
    (remove_torrent daemonConnFail "aaa111" true).1.success = false ∧
    (softDeleteEndpoint daemonConnFail [mediaRowLive] 7 "aaa111").1
      = Except.ok
          { success := true,
            message := "Media soft deleted successfully", hash := "aaa111" } :=
  ⟨rfl, rfl⟩

/-- C6 (amended): the soft-delete-by-hash workflow always attempts torrent
removal with `delete_data = true` before performing the soft-delete
database write (its RPC events, beginning with the client connection, all
precede the database statements), and the database write's success is the
sole determinant of the overall outcome; a *successful* torrent removal is
appended to the success message as an informational note, while a
torrent-removal failure is only logged — the success message is returned
unchanged — and is never surfaced as an error. -/
theorem soft_delete_best_effort (daemon : Daemon) (table : List MediaRow)
    (now : Nat) (h : String) :
    ((softDeleteEndpoint daemon table now h).2.2
      = (remove_torrent daemon h true).2 ++ (soft_delete_media table now h).2.2) ∧
    ((remove_torrent daemon h true).2.head? = some Event.rpcConnect) ∧
    ((soft_delete_media table now h).1.success = true →
      (remove_torrent daemon h true).1.found = true →
      (softDeleteEndpoint daemon table now h).1
        = Except.ok
            { success := true,
              message := (soft_delete_media table now h).1.message
                ++ " (also removed from Transmission)",
              hash := h }) ∧
    ((soft_delete_media table now h).1.success = true →
      (remove_torrent daemon h true).1.found = false →
      (softDeleteEndpoint daemon table now h).1
        = Except.ok
            { success := true,
              message := (soft_delete_media table now h).1.message ++ "",
              hash := h }) ∧
    ((soft_delete_media table now h).1.success = false →
      ∃ e, (softDeleteEndpoint daemon table now h).1 = Except.error e) := by
  refine ⟨?_, remove_torrent_events_head daemon h true, ?_, ?_, ?_⟩
  · unfold softDeleteEndpoint
    cases hs : (soft_delete_media table now h).1.success <;> simp [hs]
  · intro hs hf
    unfold softDeleteEndpoint
    simp [hs, hf]
  · intro hs hf
    unfold softDeleteEndpoint
    simp [hs, hf]
  · intro hs
    unfold softDeleteEndpoint
    simp [hs]

/-- C6 witness: the amended contract on the connection-failure daemon and
a live row — removal is attempted first, fails, and the response carries
the unmodified success message. -/
theorem soft_delete_best_effort_witness :
    (softDeleteEndpoint daemonConnFail [mediaRowLive] 7 "aaa111").2.2
      = (remove_torrent daemonConnFail "aaa111" true).2
        ++ (soft_delete_media [mediaRowLive] 7 "aaa111").2.2 ∧
    (softDeleteEndpoint daemonConnFail [mediaRowLive] 7 "aaa111").1
      = Except.ok
          { success := true,
            message := (soft_delete_media [mediaRowLive] 7 "aaa111").1.message ++ "",
            hash := "aaa111" } := by
  have hc := soft_delete_best_effort daemonConnFail [mediaRowLive] 7 "aaa111"
  exact ⟨hc.1, hc.2.2.2.1 (by decide) rfl⟩

/-- C9 counterexample: the training field patch answers a mismatched body
identifier with a plain (200) response body carrying `success = false`
and the mismatch error — it never raises, so the mismatch is not mapped
to a 400-equivalent error outcome there. -/
theorem training_mismatch_not_400_cex :
    (updateTrainingEndpoint [] 0 "tt0000001"
      ⟨"tt0000002", none, none, none, none⟩).1
      = Except.ok
          { success := false, error := some "IMDB ID mismatch",
            message := "Path IMDB ID and body IMDB ID do not match" } ∧
    ∀ e : HttpError,
      (updateTrainingEndpoint [] 0 "tt0000001"
        ⟨"tt0000002", none, none, none, none⟩).1 ≠ Except.error e := by
  refine ⟨rfl, ?_⟩
  intro e h
  simp [updateTrainingEndpoint] at h

/-- C9 (amended): for every patch request whose body identifier differs
from the path identifier, the handler fails with the identifier-mismatch
condition before any store access — no database statement is executed and
the table is untouched; the media pipeline patch maps the mismatch to an
HTTP 400 error, while the training field patch returns a 200 response
body with `success = false` and error "IMDB ID mismatch" rather than a
400-equivalent error. -/
theorem identifier_mismatch_before_store :
    (∀ (table : List TrainingRow) (now : Nat) (pid : String)
       (request : TrainingUpdateRequest), request.imdb_id ≠ pid →
      updateTrainingEndpoint table now pid request
        = (Except.ok
            { success := false, error := some "IMDB ID mismatch",
              message := "Path IMDB ID and body IMDB ID do not match" },
           table, [])) ∧
    (∀ (table : List MediaRow) (now : Nat) (ph : String)
       (request : MediaPipelineUpdateRequest), request.hash ≠ ph →
      updateMediaPipelineEndpoint table now ph request
        = (Except.error
            { status := 400,
              detail := "Hash in URL path must match hash in request body" },
           table, [])) := by
  constructor
  · intro table now pid request hne
    unfold updateTrainingEndpoint
    rw [if_pos hne]
  · intro table now ph request hne
    unfold updateMediaPipelineEndpoint
    rw [if_pos hne]

/-- C9 witness: both handlers on concrete mismatched requests. -/
theorem identifier_mismatch_before_store_witness :
    updateTrainingEndpoint [] 0 "tt0000001" ⟨"tt0000002", none, none, none, none⟩
      = (Except.ok
          { success := false, error := some "IMDB ID mismatch",
            message := "Path IMDB ID and body IMDB ID do not match" },
         [], []) ∧
    updateMediaPipelineEndpoint [] 0 "aaa111" ⟨"bbb222", none, none, none⟩
      = (Except.error
          { status := 400,
            detail := "Hash in URL path must match hash in request body" },
         [], []) :=
  ⟨identifier_mismatch_before_store.1 [] 0 "tt0000001"
     ⟨"tt0000002", none, none, none, none⟩ (by decide),
   identifier_mismatch_before_store.2 [] 0 "aaa111"
     ⟨"bbb222", none, none, none⟩ (by decide)⟩

/-- A failed `TransmissionError` handler on add carries the Transmission
classification. -/
theorem addTrErrHandler_failure (m : String) :
    (addTrErrHandler m).success = false →
    (addTrErrHandler m).error = some "Transmission error" := by
  by_cases hdup : (strContains (pyLower m) "duplicate"
      || strContains (pyLower m) "already") = true
  · intro h
    exact absurd h (by simp [addTrErrHandler, hdup])
  · intro _
    simp [addTrErrHandler, hdup]

/-- A failed add attempt always carries one of the two failure
classifications. -/
theorem add_torrent_issue_failure (d : Daemon) (link : String) (evs : List Event) :
    (add_torrent_issue d link evs).1.success = false →
    (add_torrent_issue d link evs).1.error = some "Transmission error" ∨
    (add_torrent_issue d link evs).1.error = some "Connection error" := by
  unfold add_torrent_issue
  cases ha : d.adding link with
  | ok n =>
    intro h
    exact absurd h (by simp)
  | trErr m =>
    intro h
    exact Or.inl (addTrErrHandler_failure m h)
  | exc m =>
    intro _
    exact Or.inr rfl

/-- C8: the download-daemon gateway add operation, against every daemon
behaviour: a supplied hash that already exists yields
`success = true, already_exists = true` without issuing a new add; a
daemon add rejection whose error text carries a duplicate indicator
("duplicate" or "already" in its lower-casing) is downgraded to
`success = true, already_exists = true`; and every other daemon or
connectivity failure yields a structured failure result with an error
classification — the gateway is a total function, never re-raising. -/
theorem add_torrent_gateway_contract (d : Daemon) (torrent_link : String)
    (hash : Option String) :
    (∀ h name, hash = some h → h ≠ "" → d.connect = RpcOutcome.ok () →
      d.torrent h = RpcOutcome.ok name →
      (add_torrent d torrent_link hash).1.success = true ∧
      (add_torrent d torrent_link hash).1.already_exists = true ∧
      ∀ l, Event.rpcAddTorrent l ∉ (add_torrent d torrent_link hash).2) ∧
    (∀ m evs, d.adding torrent_link = RpcOutcome.trErr m →
      (strContains (pyLower m) "duplicate"
        || strContains (pyLower m) "already") = true →
      (add_torrent_issue d torrent_link evs).1.success = true ∧
      (add_torrent_issue d torrent_link evs).1.already_exists = true) ∧
    ((add_torrent d torrent_link hash).1.success = false →
      (add_torrent d torrent_link hash).1.error = some "Transmission error" ∨
      (add_torrent d torrent_link hash).1.error = some "Connection error") := by
  refine ⟨?_, ?_, ?_⟩
  · intro h name hh hne hconn htorr
    subst hh
    unfold add_torrent
    simp only [hconn]
    have htr : optStrTruthy (some h) = true := by
      simp [optStrTruthy, hne]
    simp only [htr, if_true, Option.getD_some, htorr]
    refine ⟨by trivial, by trivial, ?_⟩
    intro l
    simp
  · intro m evs ha hdup
    simp only [add_torrent_issue, ha]
    simp [addTrErrHandler, hdup]
  · intro hfail
    unfold add_torrent at hfail ⊢
    cases hc : d.connect with
    | trErr m =>
      simp only [hc] at hfail ⊢
      exact Or.inl (addTrErrHandler_failure m hfail)
    | exc m =>
      simp only [hc] at hfail ⊢
      exact Or.inr rfl
    | ok a =>
      simp only [hc] at hfail ⊢
      by_cases ht : optStrTruthy hash = true
      · simp only [ht, if_true] at hfail ⊢
        cases htor : d.torrent (hash.getD "") with
        | ok n =>
          simp only [htor] at hfail
          exact absurd hfail (by simp)
        | trErr m =>
          simp only [htor] at hfail ⊢
          exact add_torrent_issue_failure d torrent_link _ hfail
        | exc m =>
          simp only [htor] at hfail ⊢
          exact Or.inr rfl
      · simp only [Bool.not_eq_true] at ht
        simp only [ht, Bool.false_eq_true, if_false] at hfail ⊢
        exact add_torrent_issue_failure d torrent_link _ hfail

/-- C8 witness: an existing hash on a healthy daemon short-circuits to
already-exists. -/
theorem add_torrent_gateway_contract_witness :
    (add_torrent daemonWithTorrent "magnet:x" (some "abc")).1.success = true ∧
    (add_torrent daemonWithTorrent "magnet:x" (some "abc")).1.already_exists = true := by
  have hc := (add_torrent_gateway_contract daemonWithTorrent "magnet:x"
    (some "abc")).1 "abc" "T" rfl (by decide) rfl rfl
  exact ⟨hc.1, hc.2.1⟩

/-- The gateway's generic not-found message is never the empty string. -/
theorem no_files_message_ne_empty (t : String) :
    ("No files found in any location for: " ++ t) ≠ "" := by
  intro hcontra
  have hd := congrArg String.data hcontra
  rw [String.data_append] at hd
  have h2 : ("No files found in any location for: ").data ++ t.data
      = ([] : List Char) := hd
  exact absurd (List.append_eq_nil.mp h2).1 (by decide)

/-- C1: for every training identifier whose row exists, the reject
handler returns an overall `success = true` (200) body augmented with
`file_deleted`, the optional `file_deletion_warning` and
`torrent_removed` — whatever the filesystem, the daemon and the
path-resolution result do; under a forced filesystem permission error
(deletion enabled, path data present, every deletion attempt denied) the
body has `file_deleted = some false` with a non-empty
`file_deletion_warning`; and the label is persisted as `would_not_watch`
with `human_labeled` and `reviewed` forced true. -/
theorem reject_gateway_isolation (cfg : FileConfig) (fs : FileSys)
    (daemon : Daemon) (table : List TrainingRow) (now : Nat) (pr : PathResult)
    (imdb_id : String)
    (hrow : (table.any fun r => r.imdb_id == imdb_id) = true) :
    ∃ body, (rejectEndpoint cfg fs daemon table now pr imdb_id).1
        = Except.ok body ∧
      body.success = true ∧
      body.file_deleted = some (rejectFileFields cfg fs pr).1 ∧
      body.file_deletion_warning = (rejectFileFields cfg fs pr).2 ∧
      body.torrent_removed = some (rejectTorrentRemoved daemon pr) ∧
      ((cfg.file_deletion_enabled = true ∧ pr.success = true ∧
        optStrTruthy pr.data.parent_path = true ∧
        optStrTruthy pr.data.target_path = true ∧
        (∀ p, fs.delOutcome p = DeleteOutcome.permError)) →
        body.file_deleted = some false ∧
        ∃ w, body.file_deletion_warning = some w ∧ w ≠ "") ∧
      (∀ r ∈ (rejectEndpoint cfg fs daemon table now pr imdb_id).2,
        r.imdb_id = imdb_id →
        r.label = some "would_not_watch" ∧ r.human_labeled = true ∧
        r.reviewed = true) := by
  have hu := update_training_fields_label table now imdb_id "would_not_watch"
    none none none hrow
  have hbody : rejectEndpoint cfg fs daemon table now pr imdb_id
      = (Except.ok
          { bodyOfUpdateResult (update_training_fields table now imdb_id
              (some "would_not_watch") none none none).1 with
            file_deleted := some (rejectFileFields cfg fs pr).1,
            file_deletion_warning := (rejectFileFields cfg fs pr).2,
            torrent_removed := some (rejectTorrentRemoved daemon pr) },
         (update_training_fields table now imdb_id
           (some "would_not_watch") none none none).2.1) := by
    unfold rejectEndpoint
    simp only [hu.1, Bool.not_true, Bool.false_eq_true, if_false]
  refine ⟨_, congrArg Prod.fst hbody, hu.1, rfl, rfl, rfl, ?_, ?_⟩
  · rintro ⟨hen, hprs, hpar, htar, hperm⟩
    have hdel : delete_directory cfg fs (pr.data.parent_path.getD "")
        (pr.data.target_path.getD "")
        = { success := true, deleted := false,
            message := "No files found in any location for: "
              ++ pr.data.target_path.getD "" } := by
      unfold delete_directory
      exact delete_media_not_deleted cfg fs _ _ _ hen
        (fun path => delete_path_perm_not_deleted fs path (hperm path))
    have hff : rejectFileFields cfg fs pr
        = (false, some ("No files found in any location for: "
            ++ pr.data.target_path.getD "")) := by
      unfold rejectFileFields
      simp only [hprs, if_true, hpar, htar, Bool.and_self, hdel]
      rw [if_pos (no_files_message_ne_empty _)]
      rfl
    rw [hff]
    exact ⟨rfl, _, rfl, no_files_message_ne_empty _⟩
  · have hsnd : (rejectEndpoint cfg fs daemon table now pr imdb_id).2
        = (update_training_fields table now imdb_id
            (some "would_not_watch") none none none).2.1 :=
      congrArg Prod.snd hbody
    rw [hsnd]
    exact hu.2

/-- C1 witness: the reject flow on an existing row, with deletion enabled,
every deletion attempt permission-denied, full path data, and a daemon
whose client cannot connect. -/
theorem reject_gateway_isolation_witness :
    ∃ body, (rejectEndpoint cfgDeletionEnabled fsAllPermDenied daemonConnFail
        [trainingRowUnlabeled] 3 prPathsAvailable "tt0000001").1
        = Except.ok body ∧
      body.success = true ∧
      body.file_deleted = some (rejectFileFields cfgDeletionEnabled
        fsAllPermDenied prPathsAvailable).1 ∧
      body.file_deletion_warning = (rejectFileFields cfgDeletionEnabled
        fsAllPermDenied prPathsAvailable).2 ∧
      body.torrent_removed = some (rejectTorrentRemoved daemonConnFail
        prPathsAvailable) ∧
      ((cfgDeletionEnabled.file_deletion_enabled = true ∧
        prPathsAvailable.success = true ∧
        optStrTruthy prPathsAvailable.data.parent_path = true ∧
        optStrTruthy prPathsAvailable.data.target_path = true ∧
        (∀ p, fsAllPermDenied.delOutcome p = DeleteOutcome.permError)) →
        body.file_deleted = some false ∧
        ∃ w, body.file_deletion_warning = some w ∧ w ≠ "") ∧
      (∀ r ∈ (rejectEndpoint cfgDeletionEnabled fsAllPermDenied daemonConnFail
          [trainingRowUnlabeled] 3 prPathsAvailable "tt0000001").2,
        r.imdb_id = "tt0000001" →
        r.label = some "would_not_watch" ∧ r.human_labeled = true ∧
        r.reviewed = true) :=
  reject_gateway_isolation cfgDeletionEnabled fsAllPermDenied daemonConnFail
    [trainingRowUnlabeled] 3 prPathsAvailable "tt0000001" (by decide)

end RearDiff
